import Mathlib

/-
Shallow embedding of `src/expandable_array.h` (namespace expandable_array,
class ExpandableArray<T, Alloc>).

The container state is modelled by `EA α`:
  * `blk`  — the identity of the currently owned allocation
             (`none` models the null `m_array.first` of a moved-from object),
  * `buf`  — the contents of the allocated slots, in order; `some v` is a slot
             holding a live, constructed element of value `v`, `none` is a raw
             (never-constructed or already-destroyed) slot,
  * `len`  — `m_array.second - m_array.first`, the value returned by `size()`,
  * `cap`  — the `m_capacity` data member.

Every call the container makes into its allocator
(`allocator_traits_type::allocate/deallocate/construct/destroy`, including the
constructions performed by `std::uninitialized_fill/copy/...`) is recorded as
an `AEvent` on a `Heap`, which also provides fresh block identities.  Plain
assignments (`std::copy` in the copy assignment operator) touch `buf` but emit
no allocator event, exactly as in C++.
-/

set_option autoImplicit false

namespace ExpandableArrayModel

/-- One call into the allocator.  The block is `Option Nat` so that calls made
with a null pointer (as the destructor of a moved-from container makes) are
representable: they carry `none`. -/
inductive AEvent where
  | alloc (blk : Option Nat) (n : Nat)
  | dealloc (blk : Option Nat) (n : Nat)
  | construct (blk : Option Nat) (idx : Nat)
  | destroy (blk : Option Nat) (idx : Nat)
  deriving DecidableEq, Repr

/-- The allocator world: a supply of fresh block identities and the trace of
allocator calls made so far, oldest first. -/
structure Heap where
  next : Nat
  events : List AEvent
  deriving DecidableEq, Repr

def emptyHeap : Heap := ⟨0, []⟩

/-- The data members of `ExpandableArray<T>`: `m_array.first` identity (`blk`),
slot contents (`buf`), `m_array.second - m_array.first` (`len`), and
`m_capacity` (`cap`). -/
structure EA (α : Type) where
  blk : Option Nat
  buf : List (Option α)
  len : Nat
  cap : Nat
  deriving DecidableEq, Repr

/-- The value of `size()` (line 168-171): `m_array.second - m_array.first`. -/
def EA.size {α : Type} (a : EA α) : Nat := a.len

/-- Consecutive `construct` calls at slots `lo, lo+1, ..., lo+n-1` of a block,
as emitted by `std::uninitialized_fill/_copy/_fill_n/_copy_n`. -/
def constructEvents (blk : Option Nat) (lo n : Nat) : List AEvent :=
  (List.range n).map (fun i => AEvent.construct blk (lo + i))

/-- Consecutive `destroy` calls at slots `lo, lo+1, ..., lo+n-1` of a block. -/
def destroyEvents (blk : Option Nat) (lo n : Nat) : List AEvent :=
  (List.range n).map (fun i => AEvent.destroy blk (lo + i))

/-- The default constructor (lines 67-73): allocates `default_capacity = 4`
slots, records capacity 4, constructs nothing, `second = first`. -/
def mkDefault {α : Type} (h : Heap) : Heap × EA α :=
  (⟨h.next + 1, h.events ++ [AEvent.alloc (some h.next) 4]⟩,
   ⟨some h.next, List.replicate 4 none, 0, 4⟩)

/-- The sized+fill constructor (lines 75-88): allocates `size * 2` slots,
records capacity `size * 2`, sets `second = first + size` and fill-constructs
`size` copies of `value` via `std::uninitialized_fill`. -/
def mkSizedFill {α : Type} (h : Heap) (size : Nat) (value : α) : Heap × EA α :=
  (⟨h.next + 1,
    h.events ++ [AEvent.alloc (some h.next) (size * 2)]
      ++ constructEvents (some h.next) 0 size⟩,
   ⟨some h.next, List.replicate size (some value) ++ List.replicate size none,
    size, size * 2⟩)

/-- The range constructor (lines 90-104), its input range given as the list of
values in `[begin, end)`.  It allocates `std::distance(begin, end) * 2` slots
but records `m_capacity = std::distance(begin, end)`, then copy-constructs the
range via `std::uninitialized_copy` and sets `second` past the copied
elements. -/
def mkRange {α : Type} (h : Heap) (xs : List α) : Heap × EA α :=
  (⟨h.next + 1,
    h.events ++ [AEvent.alloc (some h.next) (xs.length * 2)]
      ++ constructEvents (some h.next) 0 xs.length⟩,
   ⟨some h.next, xs.map some ++ List.replicate xs.length none,
    xs.length, xs.length⟩)

/-- The initializer-list constructor (lines 121-136): like the range
constructor but it records `m_capacity = initializer_list.size() * 2`, the
slot count it allocates. -/
def mkInitList {α : Type} (h : Heap) (xs : List α) : Heap × EA α :=
  (⟨h.next + 1,
    h.events ++ [AEvent.alloc (some h.next) (xs.length * 2)]
      ++ constructEvents (some h.next) 0 xs.length⟩,
   ⟨some h.next, xs.map some ++ List.replicate xs.length none,
    xs.length, xs.length * 2⟩)

/-- The values the live range `[m_array.first, m_array.second)` holds, as read
through the pointers.  Reading a slot already destroyed (possible after the
buggy `resize`) is undefined behaviour in the source; the model reads the
element type's default value there. -/
def liveVals {α : Type} [Inhabited α] (a : EA α) : List α :=
  (a.buf.take a.len).map (fun o => o.getD default)

/-- The copy constructor (lines 106-111): delegates to the range constructor
over the source's live range `[right.m_array.first, right.m_array.second)`. -/
def mkCopy {α : Type} [Inhabited α] (h : Heap) (a : EA α) : Heap × EA α :=
  mkRange h (liveVals a)

/-- The move constructor (lines 113-119): the new object takes the source's
`m_array` and `m_capacity`; the source's `m_array` is set to
`{nullptr, nullptr}` while its `m_capacity` is left untouched.  The result is
`(source after, destination)`. -/
def mkMove {α : Type} (a : EA α) : EA α × EA α :=
  (⟨none, [], 0, a.cap⟩, ⟨a.blk, a.buf, a.len, a.cap⟩)

/-- The destructor (lines 138-146): calls `allocator_traits_type::destroy` on
every slot in `[m_array.first, m_array.second)` — with no recursion into
array-typed elements — then `deallocate(m_array.first, m_capacity)`.  It is
run unconditionally, also on a moved-from object, where `m_array.first` is
null. -/
def destructEA {α : Type} (h : Heap) (a : EA α) : Heap :=
  ⟨h.next,
   h.events ++ destroyEvents a.blk 0 a.len ++ [AEvent.dealloc a.blk a.cap]⟩

/-- The member `reserve(new_capacity)` (lines 173-196): allocates
`new_capacity` slots, copy-constructs `min(size(), new_capacity)` elements
from the old buffer into the new one (`std::uninitialized_copy_n`), destroys
every live element of the old buffer (`destroy_all`), deallocates the old
buffer with the old `m_capacity`, then adopts the new buffer and capacity;
`m_array.second` becomes `first + min(size(), new_capacity)`. -/
def reserveOp {α : Type} (h : Heap) (a : EA α) (new_capacity : Nat) :
    Heap × EA α :=
  let nb : Option Nat := some h.next
  let m := min a.len new_capacity
  (⟨h.next + 1,
    h.events ++ [AEvent.alloc nb new_capacity]
      ++ constructEvents nb 0 m
      ++ destroyEvents a.blk 0 a.len
      ++ [AEvent.dealloc a.blk a.cap]⟩,
   ⟨nb, a.buf.take m ++ List.replicate (new_capacity - m) none, m,
    new_capacity⟩)

/-- The body of `resize` after its initial `reserve(new_size * 2)` call
(lines 203-207).  If `new_size > size()` it fill-constructs
`new_size - size()` copies of `value` at `m_array.first + size()`
(`std::uninitialized_fill_n`); otherwise it runs
`destroy_range(m_array.first + size() - new_size, m_array.second)`, i.e.
destroys the `new_size` slots at indices `[size() - new_size, size())`.
Neither branch updates `m_array.second`. -/
def resizeAfterReserve {α : Type} (h : Heap) (a : EA α) (new_size : Nat)
    (value : α) : Heap × EA α :=
  if new_size > a.len then
    (⟨h.next,
      h.events ++ constructEvents a.blk a.len (new_size - a.len)⟩,
     ⟨a.blk,
      a.buf.take a.len ++ List.replicate (new_size - a.len) (some value)
        ++ a.buf.drop new_size,
      a.len, a.cap⟩)
  else
    (⟨h.next,
      h.events ++ destroyEvents a.blk (a.len - new_size) new_size⟩,
     ⟨a.blk,
      a.buf.take (a.len - new_size) ++ List.replicate new_size none
        ++ a.buf.drop a.len,
      a.len, a.cap⟩)

/-- The member `resize(new_size, value)` (lines 198-208): first
`reserve(new_size * 2)`, then the branch of `resizeAfterReserve`. -/
def resizeOp {α : Type} (h : Heap) (a : EA α) (new_size : Nat) (value : α) :
    Heap × EA α :=
  let r := reserveOp h a (new_size * 2)
  resizeAfterReserve r.1 r.2 new_size value

/-- The copy assignment operator (lines 148-157) run as `a = b`: if
`b.size() > a.size()` it first calls `a.resize(b.size())` (with the default
fill value), then `std::copy`-assigns b's live range over `a`'s first
`b.size()` slots and sets `a.m_array.second = a.m_array.first + b.size()`.
The plain assignments of `std::copy` make no allocator calls. -/
def assignCopy {α : Type} [Inhabited α] (h : Heap) (a b : EA α) :
    Heap × EA α :=
  let r := if b.len > a.len then resizeOp h a b.len default else (h, a)
  (r.1,
   ⟨r.2.blk, b.buf.take b.len ++ r.2.buf.drop b.len, b.len, r.2.cap⟩)

/-- The move assignment operator (lines 159-166) run as `a = b`: `a` adopts
`b`'s `m_array` and copies `b`'s `m_capacity`; `b`'s `m_array` becomes
`{nullptr, nullptr}` while its `m_capacity` is left untouched.  `a`'s previous
buffer and live elements are neither destroyed nor deallocated.  The result is
`(a after, b after)`. -/
def assignMove {α : Type} (a b : EA α) : EA α × EA α :=
  (⟨b.blk, b.buf, b.len, b.cap⟩, ⟨none, [], 0, b.cap⟩)

/-- The out-of-storage condition an allocator raises when it cannot obtain
storage (`std::bad_alloc` for `std::allocator`). -/
inductive AllocErr where
  | outOfStorage
  deriving DecidableEq, Repr

/-- Fallible-allocator variant of the default constructor (lines 67-73):
`canAlloc n` says whether the allocator can obtain storage for `n` slots.  The
`allocate(default_capacity)` call sits in the member initializer list, before
anything else; if it fails the exception propagates to the constructor's
caller uncaught and no container is produced. -/
def mkDefaultE {α : Type} (canAlloc : Nat → Bool) (h : Heap) :
    Except AllocErr (Heap × EA α) :=
  if canAlloc 4 then Except.ok (mkDefault h)
  else Except.error AllocErr.outOfStorage

/-- Fallible-allocator variant of the sized+fill constructor (lines 75-88):
the `allocate(size * 2)` call in the member initializer list runs before the
fill; on failure the exception propagates to the caller uncaught. -/
def mkSizedFillE {α : Type} (canAlloc : Nat → Bool) (h : Heap) (size : Nat)
    (value : α) : Except AllocErr (Heap × EA α) :=
  if canAlloc (size * 2) then Except.ok (mkSizedFill h size value)
  else Except.error AllocErr.outOfStorage

/-- Fallible-allocator variant of the range constructor (lines 90-104): the
`allocate(distance * 2)` call in the member initializer list runs before the
copy; on failure the exception propagates to the caller uncaught. -/
def mkRangeE {α : Type} (canAlloc : Nat → Bool) (h : Heap) (xs : List α) :
    Except AllocErr (Heap × EA α) :=
  if canAlloc (xs.length * 2) then Except.ok (mkRange h xs)
  else Except.error AllocErr.outOfStorage

/-- Fallible-allocator variant of the initializer-list constructor
(lines 121-136): the `allocate(size * 2)` call in the member initializer list
runs before the copy; on failure the exception propagates to the caller
uncaught. -/
def mkInitListE {α : Type} (canAlloc : Nat → Bool) (h : Heap) (xs : List α) :
    Except AllocErr (Heap × EA α) :=
  if canAlloc (xs.length * 2) then Except.ok (mkInitList h xs)
  else Except.error AllocErr.outOfStorage

/-- Fallible-allocator variant of the copy constructor (lines 106-111): it
delegates to the range constructor over the source's live range, so the
allocation that can fail is that constructor's `allocate` of twice the
source's live-range length. -/
def mkCopyE {α : Type} [Inhabited α] (canAlloc : Nat → Bool) (h : Heap)
    (a : EA α) : Except AllocErr (Heap × EA α) :=
  mkRangeE canAlloc h (liveVals a)

/-- Fallible-allocator variant of `reserve`: `canAlloc n` says whether the
allocator can obtain storage for `n` slots.  The `allocate` call is the first
statement of `reserve` (line 180); if it fails the exception propagates to the
caller — nothing in `reserve` catches it — and no later statement runs, so the
container is untouched. -/
def reserveE {α : Type} (canAlloc : Nat → Bool) (h : Heap) (a : EA α)
    (new_capacity : Nat) : Except AllocErr (Heap × EA α) :=
  if canAlloc new_capacity then Except.ok (reserveOp h a new_capacity)
  else Except.error AllocErr.outOfStorage

/-- Fallible-allocator variant of `resize`: the only allocation is the one
inside the initial `reserve(new_size * 2)` call (line 202); a failure there
propagates out of `resize` uncaught. -/
def resizeE {α : Type} (canAlloc : Nat → Bool) (h : Heap) (a : EA α)
    (new_size : Nat) (value : α) : Except AllocErr (Heap × EA α) :=
  match reserveE canAlloc h a (new_size * 2) with
  | Except.error e => Except.error e
  | Except.ok r => Except.ok (resizeAfterReserve r.1 r.2 new_size value)

/-- Destruction calls made on elements of an array-typed element type
`T = S[n]`: `slot i` is an `allocator_traits_type::destroy` call on the
array object in slot `i` itself, `sub i j` one on sub-element `j` of the
array in slot `i`. -/
inductive DEv where
  | slot (i : Nat)
  | sub (i : Nat) (j : Nat)
  deriving DecidableEq, Repr

/-- The array-type overload of `destroy_range` (lines 43-52) on a range of
`count` slots starting at slot `lo`, for element type `T = S[n]` with
`extent_v<T> = n`: for each slot it first recurses into the slot's `n`
sub-elements (`destroy_range(*begin, *begin + extent_v<T>)`, the scalar
overload destroying each in order) and then destroys the array slot itself. -/
def destroyRangeArr (n : Nat) (lo : Nat) : Nat → List DEv
  | 0 => []
  | count + 1 =>
    (List.range n).map (DEv.sub lo) ++ [DEv.slot lo]
      ++ destroyRangeArr n (lo + 1) count

/-- The destruction calls the destructor's own loop (lines 140-143) makes on a
container with `len` live slots: one direct
`allocator_traits_type::destroy(m_allocator, iter++)` per slot in
`[m_array.first, m_array.second)`, with no recursion into sub-elements — the
destructor does not go through `destroy_range`. -/
def dtorDestroys (len : Nat) : List DEv :=
  (List.range len).map DEv.slot

/-- States a single container can reach through the public operations of
`ExpandableArray`, starting from any constructor.  The binary operations
(copy/move assignment, copy/move construction) take the other operand from a
reachable state as well. -/
inductive Reach {α : Type} [Inhabited α] : EA α → Prop where
  | defaultCtor (h : Heap) : Reach (mkDefault h).2
  | sizedFill (h : Heap) (n : Nat) (v : α) : Reach (mkSizedFill h n v).2
  | rangeCtor (h : Heap) (xs : List α) : Reach (mkRange h xs).2
  | initListCtor (h : Heap) (xs : List α) : Reach (mkInitList h xs).2
  | copyCtor (h : Heap) (a : EA α) : Reach a → Reach (mkCopy h a).2
  | moveSrc (a : EA α) : Reach a → Reach (mkMove a).1
  | moveDst (a : EA α) : Reach a → Reach (mkMove a).2
  | reserveStep (h : Heap) (a : EA α) (k : Nat) : Reach a → Reach (reserveOp h a k).2
  | resizeStep (h : Heap) (a : EA α) (n : Nat) (v : α) :
      Reach a → Reach (resizeOp h a n v).2
  | copyAssign (h : Heap) (a b : EA α) :
      Reach a → Reach b → Reach (assignCopy h a b).2
  | moveAssignDst (a b : EA α) : Reach a → Reach b → Reach (assignMove a b).1
  | moveAssignSrc (a b : EA α) : Reach a → Reach b → Reach (assignMove a b).2

theorem resizeAfterReserve_len {α : Type} (h : Heap) (a : EA α) (n : Nat)
    (v : α) : (resizeAfterReserve h a n v).2.len = a.len := by
  unfold resizeAfterReserve; split <;> rfl

theorem resizeAfterReserve_cap {α : Type} (h : Heap) (a : EA α) (n : Nat)
    (v : α) : (resizeAfterReserve h a n v).2.cap = a.cap := by
  unfold resizeAfterReserve; split <;> rfl

theorem resizeOp_len {α : Type} (h : Heap) (a : EA α) (n : Nat) (v : α) :
    (resizeOp h a n v).2.len = min a.len (n * 2) := by
  simp [resizeOp, resizeAfterReserve_len, reserveOp]

theorem resizeOp_cap {α : Type} (h : Heap) (a : EA α) (n : Nat) (v : α) :
    (resizeOp h a n v).2.cap = n * 2 := by
  simp [resizeOp, resizeAfterReserve_cap, reserveOp]

/-- C1.  Claim: after `resize(n, value)`, `size()` equals `n`; growth fills
the new trailing slots with `value`, shrinking destroys exactly the trailing
elements and keeps the first `n` unchanged.  The code violates this: `resize`
never updates `m_array.second`.  On `ExpandableArray<int> a(1, 7)` followed by
`a.resize(3, 9)`, `size()` is still 1, not 3 (the two filled slots sit beyond
`m_array.second`).  On `ExpandableArray<int> b(3, 7)` followed by
`b.resize(1)`, the inner `reserve(2)` already drops one element via its capped
copy, the shrink branch destroys slot 1 rather than slots 1 and 2, and
`size()` is left at 2, not 1, with the destroyed slot 1 still inside the live
range. -/
theorem c1_resize_failing_input :
    ((resizeOp (mkSizedFill (α := Nat) emptyHeap 1 7).1
        (mkSizedFill (α := Nat) emptyHeap 1 7).2 3 9).2.size = 1 ∧
      ¬ (resizeOp (mkSizedFill (α := Nat) emptyHeap 1 7).1
        (mkSizedFill (α := Nat) emptyHeap 1 7).2 3 9).2.size = 3 ∧
      (resizeOp (mkSizedFill (α := Nat) emptyHeap 1 7).1
        (mkSizedFill (α := Nat) emptyHeap 1 7).2 3 9).2.buf
        = [some 7, some 9, some 9, none, none, none]) ∧
    ((resizeOp (mkSizedFill (α := Nat) emptyHeap 3 7).1
        (mkSizedFill (α := Nat) emptyHeap 3 7).2 1 0).2.size = 2 ∧
      ¬ (resizeOp (mkSizedFill (α := Nat) emptyHeap 3 7).1
        (mkSizedFill (α := Nat) emptyHeap 3 7).2 1 0).2.size = 1 ∧
      (resizeOp (mkSizedFill (α := Nat) emptyHeap 3 7).1
        (mkSizedFill (α := Nat) emptyHeap 3 7).2 1 0).2.buf
        = [some 7, none]) := by
  decide

/-- C2 counterexample.  The claim says a moved-from source has "no owned
storage, so destroying the source performs no element destruction and no
deallocation (its destructor is a no-op)".  Move-constructing from a
default-constructed container and destroying the source refutes the
no-deallocation part: the source's destructor still calls
`deallocate(nullptr, m_capacity)` — the trace gains the call
`dealloc none 4` — so the destructor is not a no-op. -/
theorem c2_moved_from_dtor_deallocates :
    (destructEA (mkDefault (α := Nat) emptyHeap).1
        (mkMove (mkDefault (α := Nat) emptyHeap).2).1).events
      = [AEvent.alloc (some 0) 4, AEvent.dealloc none 4] ∧
    ¬ (destructEA (mkDefault (α := Nat) emptyHeap).1
        (mkMove (mkDefault (α := Nat) emptyHeap).2).1).events
      = (mkDefault (α := Nat) emptyHeap).1.events := by
  decide

/-- C2 as amended: after move construction (or move assignment) the source has
`size() == 0` and null `begin`/`end`, and the destination holds exactly the
source's prior state (buffer, live elements in order, capacity); destroying
the source destroys no elements, but its destructor still calls `deallocate`
with the null pointer and the source's stale recorded capacity. -/
theorem c2_move_spec {α : Type} (h : Heap) (a b : EA α) :
    (mkMove a).2 = a ∧
    (mkMove a).1.size = 0 ∧
    (mkMove a).1.blk = none ∧
    destructEA h (mkMove a).1
      = ⟨h.next, h.events ++ [AEvent.dealloc none a.cap]⟩ ∧
    (assignMove a b).1 = ⟨b.blk, b.buf, b.len, b.cap⟩ ∧
    (assignMove a b).2.size = 0 ∧
    (assignMove a b).2.blk = none ∧
    destructEA h (assignMove a b).2
      = ⟨h.next, h.events ++ [AEvent.dealloc none b.cap]⟩ := by
  refine ⟨rfl, rfl, rfl, ?_, rfl, rfl, rfl, ?_⟩ <;>
    simp [destructEA, mkMove, assignMove, destroyEvents]

/-- C3.  Claim: every allocated block is deallocated exactly once with the
same slot count it was allocated with, and every constructed element is
destroyed exactly once.  The range constructor violates the first part:
constructing from a one-element range allocates a block of 2 slots
(`distance * 2`) but records `m_capacity = 1`, so the destructor deallocates
that block with slot count 1 ≠ 2. -/
theorem c3_range_alloc_dealloc_mismatch :
    (destructEA (mkRange (α := Nat) emptyHeap [5]).1
        (mkRange (α := Nat) emptyHeap [5]).2).events
      = [AEvent.alloc (some 0) 2, AEvent.construct (some 0) 0,
         AEvent.destroy (some 0) 0, AEvent.dealloc (some 0) 1] ∧
    ¬ (2 : Nat) = 1 := by
  decide

/-- C5 counterexample.  The claim says the range constructor allocates storage
for exactly `n` elements and records a capacity equal to the slot count it
actually allocated.  On the one-element range `{5}` it allocates 2 slots
(`std::distance * 2`) yet records `m_capacity = 1`, so neither part holds. -/
theorem c5_range_ctor_overallocates :
    (mkRange (α := Nat) emptyHeap [5]).1.events
      = [AEvent.alloc (some 0) 2, AEvent.construct (some 0) 0] ∧
    (mkRange (α := Nat) emptyHeap [5]).2.cap = 1 ∧
    ¬ (2 : Nat) = 1 := by
  decide

/-- C5 as amended: for a range of length `n`, the range constructor allocates
storage for `2 * n` elements, records a capacity of `n` (the range length,
half of what it allocated), and copy-constructs the `n` range elements into
the new storage in order; the destructor later returns `n` slots to the
allocator — the recorded capacity, not the `2 * n` slots that were
allocated. -/
theorem c5_range_ctor_spec {α : Type} (h : Heap) (xs : List α) :
    (mkRange h xs).1.events
      = h.events ++ [AEvent.alloc (some h.next) (xs.length * 2)]
        ++ constructEvents (some h.next) 0 xs.length ∧
    (mkRange h xs).2.cap = xs.length ∧
    (mkRange h xs).2.size = xs.length ∧
    (mkRange h xs).2.buf.take xs.length = xs.map some ∧
    (destructEA (mkRange h xs).1 (mkRange h xs).2).events
      = (mkRange h xs).1.events
        ++ destroyEvents (some h.next) 0 xs.length
        ++ [AEvent.dealloc (some h.next) xs.length] := by
  refine ⟨rfl, rfl, rfl, ?_, rfl⟩
  rw [mkRange]
  simp only
  rw [List.take_append_of_le_length (by simp)]
  simp

/-- C9.  Claim: every element-destroying operation, the destructor included,
recurses into an array-typed element's sub-elements before destroying the
array slot itself.  `destroy_range` (used by `reserve` and `resize`) does
recurse, but the destructor uses its own loop that calls the allocator's
`destroy` once per top-level slot with no recursion.  For element type
`int[3]` and one live element, the destructor emits only the slot destroy,
none of the three sub-element destroys that `destroy_range` would emit. -/
theorem c9_dtor_does_not_recurse :
    dtorDestroys 1 = [DEv.slot 0] ∧
    destroyRangeArr 3 0 1
      = [DEv.sub 0 0, DEv.sub 0 1, DEv.sub 0 2, DEv.slot 0] ∧
    ¬ DEv.sub 0 0 ∈ dtorDestroys 1 ∧
    ¬ dtorDestroys 1 = destroyRangeArr 3 0 1 := by
  decide

/-- C10.  The sized+fill constructor called with size 0 allocates `0 * 2 = 0`
slots (not the default starting capacity of 4), records capacity 0, constructs
nothing, and yields `size() == 0`; destroying the resulting container destroys
no elements and deallocates the zero-slot allocation. -/
theorem c10_sized_fill_zero {α : Type} (h : Heap) (v : α) :
    (mkSizedFill h 0 v).2.size = 0 ∧
    (mkSizedFill h 0 v).2.cap = 0 ∧
    (mkSizedFill h 0 v).1.events = h.events ++ [AEvent.alloc (some h.next) 0] ∧
    (destructEA (mkSizedFill h 0 v).1 (mkSizedFill h 0 v).2).events
      = h.events
        ++ [AEvent.alloc (some h.next) 0, AEvent.dealloc (some h.next) 0] := by
  simp [mkSizedFill, destructEA, EA.size, constructEvents, destroyEvents]

/-- C4 counterexample.  The claim's parenthetical says the destination's
capacity is grown first when `b` is larger.  Take `a` default-constructed and
then `a.reserve(10)` (capacity 10, size 0) and `b = ExpandableArray<int>(3, 7)`
(size 3 > 0): `a = b` routes through `a.resize(3)`, which replaces the backing
storage with `2 * 3 = 6` slots — the capacity shrinks from 10 to 6, it is not
grown. -/
theorem c4_capacity_not_grown :
    (let r1 := reserveOp (mkDefault (α := Nat) emptyHeap).1
                 (mkDefault (α := Nat) emptyHeap).2 10
     let rb := mkSizedFill (α := Nat) r1.1 3 7
     let r2 := assignCopy rb.1 r1.2 rb.2
     r1.2.size = 0 ∧ rb.2.size = 3 ∧ r1.2.cap = 10 ∧ r2.2.cap = 6 ∧
       r2.2.cap < r1.2.cap) := by
  decide

/-- C4 as amended: after copy assignment `a = b` between distinct containers,
`a`'s `size()` equals `b`'s `size()` and `a`'s live elements equal `b`'s live
elements in order; when `b` is larger the destination's capacity is first
replaced by `2 * b.size()` (which may be smaller than `a`'s previous
capacity), otherwise the capacity is left unchanged. -/
theorem c4_copy_assign_spec {α : Type} [Inhabited α] (h : Heap) (a b : EA α)
    (hb : b.len ≤ b.buf.length) :
    (assignCopy h a b).2.size = b.size ∧
    (assignCopy h a b).2.buf.take b.len = b.buf.take b.len ∧
    (b.len > a.len → (assignCopy h a b).2.cap = b.len * 2) ∧
    (¬ b.len > a.len → (assignCopy h a b).2.cap = a.cap) := by
  refine ⟨rfl, ?_, fun hgt => ?_, fun hle => ?_⟩
  · show (b.buf.take b.len ++ _).take b.len = b.buf.take b.len
    rw [List.take_append_of_le_length (by simp [List.length_take]; exact hb)]
    rw [List.take_take]
    simp
  · show (if b.len > a.len then resizeOp h a b.len default else (h, a)).2.cap
      = b.len * 2
    rw [if_pos hgt]
    exact resizeOp_cap h a b.len default
  · show (if b.len > a.len then resizeOp h a b.len default else (h, a)).2.cap
      = a.cap
    rw [if_neg hle]

theorem c4_copy_assign_spec_witness :
    (assignCopy emptyHeap (mkDefault (α := Nat) emptyHeap).2
        (mkSizedFill (α := Nat) emptyHeap 3 7).2).2.size
      = (mkSizedFill (α := Nat) emptyHeap 3 7).2.size :=
  (c4_copy_assign_spec emptyHeap (mkDefault (α := Nat) emptyHeap).2
    (mkSizedFill (α := Nat) emptyHeap 3 7).2 (by decide)).1

/-- C6.  `reserve(k)` with `k ≥ size()` preserves `size()` and every live
element, in order and unchanged in value (the new buffer's first `size()`
slots carry the same contents), and sets the recorded capacity to `k`; only
the backing storage and capacity change. -/
theorem c6_reserve_preserves {α : Type} (h : Heap) (a : EA α) (k : Nat)
    (hk : a.size ≤ k) (hw : a.len ≤ a.buf.length) :
    (reserveOp h a k).2.size = a.size ∧
    (reserveOp h a k).2.buf.take a.len = a.buf.take a.len ∧
    (reserveOp h a k).2.cap = k := by
  have hmin : min a.len k = a.len := Nat.min_eq_left hk
  refine ⟨?_, ?_, rfl⟩
  · show min a.len k = a.len
    exact hmin
  · show (a.buf.take (min a.len k) ++ _).take a.len = a.buf.take a.len
    rw [hmin]
    rw [List.take_append_of_le_length (by simp [List.length_take]; exact hw)]
    rw [List.take_take]
    simp

theorem c6_reserve_preserves_witness :
    (reserveOp emptyHeap (mkSizedFill (α := Nat) emptyHeap 2 7).2 5).2.size
      = (mkSizedFill (α := Nat) emptyHeap 2 7).2.size :=
  (c6_reserve_preserves emptyHeap (mkSizedFill (α := Nat) emptyHeap 2 7).2 5
    (by decide) (by decide)).1

/-- C7.  `capacity ≥ size()` (equivalently `begin ≤ end ≤ begin + capacity`)
holds in every state a container can reach through the constructors,
`reserve`, `resize`, and copy/move assignment — including the moved-from
state, where `size() = 0`. -/
theorem c7_capacity_invariant {α : Type} [Inhabited α] (ea : EA α)
    (hr : Reach ea) : ea.size ≤ ea.cap := by
  induction hr with
  | defaultCtor h => exact Nat.zero_le _
  | sizedFill h n v =>
    show n ≤ n * 2
    omega
  | rangeCtor h xs => exact Nat.le.refl
  | initListCtor h xs =>
    show xs.length ≤ xs.length * 2
    omega
  | copyCtor h a ha iha => exact Nat.le.refl
  | moveSrc a ha iha => exact Nat.zero_le _
  | moveDst a ha iha => exact iha
  | reserveStep h a k ha iha => exact Nat.min_le_right _ _
  | resizeStep h a n v ha iha =>
    show (resizeOp h a n v).2.len ≤ (resizeOp h a n v).2.cap
    rw [resizeOp_len, resizeOp_cap]
    exact Nat.min_le_right _ _
  | copyAssign h a b ha hb iha ihb =>
    by_cases hgt : b.len > a.len
    · have hcap : (assignCopy h a b).2.cap = b.len * 2 := by
        show (if b.len > a.len then resizeOp h a b.len default
          else (h, a)).2.cap = b.len * 2
        rw [if_pos hgt]
        exact resizeOp_cap h a b.len default
      have hsz : (assignCopy h a b).2.size = b.len := rfl
      omega
    · have hcap : (assignCopy h a b).2.cap = a.cap := by
        show (if b.len > a.len then resizeOp h a b.len default
          else (h, a)).2.cap = a.cap
        rw [if_neg hgt]
      have hsz : (assignCopy h a b).2.size = b.len := rfl
      have ha' : a.size = a.len := rfl
      omega
  | moveAssignDst a b ha hb iha ihb => exact ihb
  | moveAssignSrc a b ha hb iha ihb => exact Nat.zero_le _

theorem c7_capacity_invariant_witness :
    ((resizeOp (mkDefault (α := Nat) emptyHeap).1
        (mkDefault (α := Nat) emptyHeap).2 3 9).2).size
      ≤ ((resizeOp (mkDefault (α := Nat) emptyHeap).1
        (mkDefault (α := Nat) emptyHeap).2 3 9).2).cap :=
  c7_capacity_invariant _
    (Reach.resizeStep (mkDefault (α := Nat) emptyHeap).1
      (mkDefault (α := Nat) emptyHeap).2 3 9
      (Reach.defaultCtor emptyHeap))

/-- C8.  When the allocator cannot obtain storage, the failure surfaces as the
out-of-storage condition to the caller of the triggering operation: each
allocating constructor (default, sized+fill, range, initializer-list, copy)
fails in its member initializer list before constructing any element, so no
container is produced; `reserve` fails on its very first step (so the
container is untouched — the caller still holds the old, valid, destructible
state); `resize` propagates the failure of its inner `reserve(new_size * 2)`
uncaught.  When allocation succeeds, every operation behaves exactly as the
infallible model — there is no local recovery path anywhere. -/
theorem c8_alloc_failure_propagates {α : Type} [Inhabited α]
    (canAlloc : Nat → Bool) (h : Heap) (a : EA α) (k n : Nat) (v : α)
    (xs : List α) :
    (canAlloc 4 = false →
      mkDefaultE (α := α) canAlloc h = Except.error AllocErr.outOfStorage) ∧
    (canAlloc (n * 2) = false →
      mkSizedFillE canAlloc h n v = Except.error AllocErr.outOfStorage) ∧
    (canAlloc (xs.length * 2) = false →
      mkRangeE canAlloc h xs = Except.error AllocErr.outOfStorage) ∧
    (canAlloc (xs.length * 2) = false →
      mkInitListE canAlloc h xs = Except.error AllocErr.outOfStorage) ∧
    (canAlloc ((liveVals a).length * 2) = false →
      mkCopyE canAlloc h a = Except.error AllocErr.outOfStorage) ∧
    (canAlloc k = false →
      reserveE canAlloc h a k = Except.error AllocErr.outOfStorage) ∧
    (canAlloc (n * 2) = false →
      resizeE canAlloc h a n v = Except.error AllocErr.outOfStorage) ∧
    (canAlloc 4 = true →
      mkDefaultE (α := α) canAlloc h = Except.ok (mkDefault h)) ∧
    (canAlloc (n * 2) = true →
      mkSizedFillE canAlloc h n v = Except.ok (mkSizedFill h n v)) ∧
    (canAlloc (xs.length * 2) = true →
      mkRangeE canAlloc h xs = Except.ok (mkRange h xs)) ∧
    (canAlloc (xs.length * 2) = true →
      mkInitListE canAlloc h xs = Except.ok (mkInitList h xs)) ∧
    (canAlloc ((liveVals a).length * 2) = true →
      mkCopyE canAlloc h a = Except.ok (mkCopy h a)) ∧
    (canAlloc k = true →
      reserveE canAlloc h a k = Except.ok (reserveOp h a k)) ∧
    (canAlloc (n * 2) = true →
      resizeE canAlloc h a n v = Except.ok (resizeOp h a n v)) := by
  refine ⟨fun hc => ?_, fun hc => ?_, fun hc => ?_, fun hc => ?_,
    fun hc => ?_, fun hc => ?_, fun hc => ?_, fun hc => ?_, fun hc => ?_,
    fun hc => ?_, fun hc => ?_, fun hc => ?_, fun hc => ?_, fun hc => ?_⟩ <;>
    simp [mkDefaultE, mkSizedFillE, mkRangeE, mkInitListE, mkCopyE, mkCopy,
      reserveE, resizeE, resizeOp, hc]

theorem c8_alloc_failure_propagates_witness :
    mkSizedFillE (fun _ => false) emptyHeap 3 (7 : Nat)
      = Except.error AllocErr.outOfStorage ∧
    reserveE (fun _ => false) emptyHeap (mkDefault (α := Nat) emptyHeap).2 9
      = Except.error AllocErr.outOfStorage :=
  ⟨(c8_alloc_failure_propagates (fun _ => false) emptyHeap
      (mkDefault (α := Nat) emptyHeap).2 9 3 7 []).2.1 rfl,
   (c8_alloc_failure_propagates (fun _ => false) emptyHeap
      (mkDefault (α := Nat) emptyHeap).2 9 3 7 []).2.2.2.2.2.2.1 rfl⟩

end ExpandableArrayModel
